import Mathlib

set_option maxHeartbeats 1000000

/-!
Shallow embedding of the hub/port/device protocol layer of the
node-poweredup repository: the `BaseHub` class (`src/hubs/basehub.ts`,
given as `src/unnamed/part_001`), the legacy `Hub` class
(`src/hubs/hub.ts`), and the `DuploTrainBaseColorSensor` and
`VoltageSensor` device decoders.

Modelling conventions: a Node `Buffer` is a `List Nat` of byte values;
JavaScript number arithmetic on sensor readings is carried out exactly
over `Rat`; a JavaScript `throw` is an `Except.error`; a JavaScript
object used as a map is an association list whose lookup returns the
first entry with the given key.
-/

/-- JavaScript object lookup `obj[k]`: the first entry with the given key,
`none` standing for `undefined`. -/
def lookupKV {α β : Type} [DecidableEq α] : List (α × β) → α → Option β
  | [], _ => none
  | (k, v) :: rest, key => if k = key then some v else lookupKV rest key

/-- JavaScript object assignment `obj[k] = v`: replaces the value at an
existing key, otherwise adds the new key. -/
def insertAL {β : Type} : List (Nat × β) → Nat → β → List (Nat × β)
  | [], k, v => [(k, v)]
  | (k', v') :: rest, k, v =>
    if k' = k then (k, v) :: rest else (k', v') :: insertAL rest k v

/-- JavaScript `delete obj[k]`. -/
def eraseAL {β : Type} : List (Nat × β) → Nat → List (Nat × β)
  | [], _ => []
  | (k', v') :: rest, k =>
    if k' = k then eraseAL rest k else (k', v') :: eraseAL rest k

/-- The keys of the association list are pairwise distinct, i.e. the object
holds at most one value per key. -/
def keysNodup {β : Type} (l : List (Nat × β)) : Prop :=
  (l.map Prod.fst).Nodup

/-- True exactly on `Except.error`, i.e. when the modelled JavaScript call
would throw. -/
def isError {ε α : Type} : Except ε α → Bool
  | .error _ => true
  | .ok _ => false

/-- Node `Buffer.readUInt16LE`: bounds-checked little-endian unsigned 16-bit
read; an offset past `length - 2` raises a range error. -/
def readUInt16LE (msg : List Nat) (offset : Nat) : Except String Nat :=
  if offset + 2 ≤ msg.length then
    .ok (msg.getD offset 0 + 256 * msg.getD (offset + 1) 0)
  else
    .error "ERR_OUT_OF_RANGE"

/-- Node `Buffer.readInt16LE`: bounds-checked little-endian signed 16-bit
read. -/
def readInt16LE (msg : List Nat) (offset : Nat) : Except String Int :=
  match readUInt16LE msg offset with
  | .ok u => .ok (if u < 32768 then (u : Int) else (u : Int) - 65536)
  | .error e => .error e

namespace Consts

/-- Modelled from the spec: hub-type codes come from the repository's
`consts` module, which is not among the given sources; the given code and
the claims depend only on which codes occur as keys of the voltage scaling
tables and on the codes being distinct, not on the numerals themselves. -/
def HubType.UNKNOWN : Nat := 0

def HubType.WEDO2_SMART_HUB : Nat := 1

def HubType.MOVE_HUB : Nat := 2

def HubType.HUB : Nat := 3

def HubType.REMOTE_CONTROL : Nat := 4

def HubType.DUPLO_TRAIN_BASE : Nat := 5

def HubType.TECHNIC_MEDIUM_HUB : Nat := 6

/-- Modelled from the spec: device-type codes come from the repository's
`consts` module, which is not among the given sources; the claims depend
only on which codes are keys of the decoder registries and on the codes
being distinct. -/
def DeviceType.SIMPLE_MEDIUM_LINEAR_MOTOR : Nat := 1

def DeviceType.TRAIN_MOTOR : Nat := 2

def DeviceType.LIGHT : Nat := 8

def DeviceType.VOLTAGE_SENSOR : Nat := 20

def DeviceType.CURRENT_SENSOR : Nat := 21

def DeviceType.PIEZO_BUZZER : Nat := 22

def DeviceType.HUB_LED : Nat := 23

def DeviceType.TILT_SENSOR : Nat := 34

def DeviceType.MOTION_SENSOR : Nat := 35

def DeviceType.COLOR_DISTANCE_SENSOR : Nat := 37

def DeviceType.MEDIUM_LINEAR_MOTOR : Nat := 38

def DeviceType.MOVE_HUB_MEDIUM_LINEAR_MOTOR : Nat := 39

def DeviceType.MOVE_HUB_TILT_SENSOR : Nat := 40

def DeviceType.DUPLO_TRAIN_BASE_MOTOR : Nat := 41

def DeviceType.DUPLO_TRAIN_BASE_SPEAKER : Nat := 42

def DeviceType.DUPLO_TRAIN_BASE_COLOR_SENSOR : Nat := 43

def DeviceType.DUPLO_TRAIN_BASE_SPEEDOMETER : Nat := 44

def DeviceType.TECHNIC_LARGE_LINEAR_MOTOR : Nat := 46

def DeviceType.TECHNIC_XLARGE_LINEAR_MOTOR : Nat := 47

def DeviceType.REMOTE_CONTROL_BUTTON : Nat := 55

def DeviceType.TECHNIC_MEDIUM_HUB_ACCELEROMETER : Nat := 57

def DeviceType.TECHNIC_MEDIUM_HUB_GYRO_SENSOR : Nat := 58

def DeviceType.TECHNIC_MEDIUM_HUB_TILT_SENSOR : Nat := 59

end Consts

namespace DuploTrainBaseColorSensor

/-- Mode numbers of `DuploTrainBaseColorSensor`
(`src/devices/duplotrainbasecolorsensor.ts`). -/
def Mode.COLOR : Nat := 0x00

def Mode.REFLECTIVITY : Nat := 0x02

def Mode.RGB : Nat := 0x03

def ModeMap : List (String × Nat) :=
  [("color", Mode.COLOR), ("reflect", Mode.REFLECTIVITY), ("rgb", Mode.RGB)]

/-- Events the sensor can emit. The `reflect` payload is an `Option`
because on a truncated buffer `message[4]` evaluates to `undefined`, which
the source passes through as the payload unchanged. -/
inductive DuploEvent where
  | color (color : Nat)
  | reflect (reflect : Option Nat)
  | rgb (red green blue : Nat)
deriving DecidableEq

/-- Outcome of one `receive` call: delegation to the base `Device` decoder
(the `hub.autoParse` branch; that base module is not among the given
sources), a single emitted event, or silence. -/
inductive DuploOutcome where
  | delegated
  | event (e : DuploEvent)
  | nothing
deriving DecidableEq

/-- `DuploTrainBaseColorSensor.receive`: switch on the current mode.
`message[4]` is plain index access (yielding `undefined`, not a throw, when
out of range), while the RGB mode uses the bounds-checked
`readUInt16LE`, whose failure propagates as a thrown range error. In COLOR
mode the comparison `undefined <= 10` is false, so a truncated buffer emits
nothing. -/
def receive (autoParse : Bool) (mode : Nat) (msg : List Nat) :
    Except String DuploOutcome :=
  if autoParse then .ok .delegated
  else if mode = Mode.COLOR then
    match msg[4]? with
    | some c => if c ≤ 10 then .ok (.event (.color c)) else .ok .nothing
    | none => .ok .nothing
  else if mode = Mode.REFLECTIVITY then
    .ok (.event (.reflect msg[4]?))
  else if mode = Mode.RGB then
    match readUInt16LE msg 4, readUInt16LE msg 6, readUInt16LE msg 8 with
    | .ok red, .ok green, .ok blue =>
      .ok (.event (.rgb (red / 4) (green / 4) (blue / 4)))
    | .error e, _, _ => .error e
    | .ok _, .error e, _ => .error e
    | .ok _, .ok _, .error e => .error e
  else .ok .nothing

end DuploTrainBaseColorSensor

namespace VoltageSensor

/-- Mode numbers of `VoltageSensor` (`src/devices/voltagesensor.ts`). -/
def Mode.VOLTAGE : Nat := 0x00

def ModeMap : List (String × Nat) :=
  [("voltage", Mode.VOLTAGE)]

/-- `VoltageSensor.MaxVoltageValue` scaling table (volts). -/
def MaxVoltageValue : List (Nat × Rat) :=
  [(Consts.HubType.UNKNOWN, 9.615),
   (Consts.HubType.DUPLO_TRAIN_BASE, 6.4),
   (Consts.HubType.REMOTE_CONTROL, 6.4)]

/-- `VoltageSensor.MaxVoltageRaw` scaling table (raw ADC full-scale). -/
def MaxVoltageRaw : List (Nat × Rat) :=
  [(Consts.HubType.UNKNOWN, 3893),
   (Consts.HubType.DUPLO_TRAIN_BASE, 3047),
   (Consts.HubType.REMOTE_CONTROL, 3200),
   (Consts.HubType.TECHNIC_MEDIUM_HUB, 4095)]

inductive VoltageOutcome where
  | voltage (v : Rat)
  | nothing
deriving DecidableEq

/-- Modelled from the spec: `Device.isWeDo2SmartHub` lives in the base
device module, which is not among the given sources; per the spec it
selects the one hub family with its own signed fixed-divisor scaling law,
i.e. it tests whether the owning hub's type is the WeDo 2.0 smart hub. -/
def isWeDo2SmartHub (hubType : Nat) : Bool :=
  hubType == Consts.HubType.WEDO2_SMART_HUB

/-- `VoltageSensor.receive`: in VOLTAGE mode, a WeDo 2.0 hub reads a signed
16-bit value at offset 2 and divides by 40; every other hub type reads an
unsigned 16-bit value at offset 4 and scales it by the per-hub-type table
entries, each table falling back to its `UNKNOWN` row when the hub type has
no row. The `getD 0` defaults are never taken, as both tables contain an
`UNKNOWN` row. -/
def receive (hubType : Nat) (mode : Nat) (msg : List Nat) :
    Except String VoltageOutcome :=
  if mode = Mode.VOLTAGE then
    if isWeDo2SmartHub hubType then
      match readInt16LE msg 2 with
      | .ok raw => .ok (.voltage ((raw : Rat) / 40))
      | .error e => .error e
    else
      let maxVoltageValue :=
        match lookupKV MaxVoltageValue hubType with
        | some v => v
        | none => (lookupKV MaxVoltageValue Consts.HubType.UNKNOWN).getD 0
      let maxVoltageRaw :=
        match lookupKV MaxVoltageRaw hubType with
        | some v => v
        | none => (lookupKV MaxVoltageRaw Consts.HubType.UNKNOWN).getD 0
      match readUInt16LE msg 4 with
      | .ok raw => .ok (.voltage ((raw : Rat) * maxVoltageValue / maxVoltageRaw))
      | .error e => .error e
  else .ok .nothing

end VoltageSensor

/-- A device as the hub bookkeeping sees it: the port it occupies and its
device-type code. -/
structure Device where
  portId : Nat
  deviceType : Nat
deriving DecidableEq

/-- Hub-level events emitted by attach/detach transitions. -/
inductive HubEvent where
  | attach (d : Device)
  | detach (d : Device)
deriving DecidableEq

/-- The mutable hub state the claims are about: the attached-device table
keyed by port id, and the pending waiter callbacks in registration order
(index 0 registered first). -/
structure HubState where
  attachedDevices : List (Nat × Device)
  attachCallbacks : List (Device → Bool)

/-- Result of one `_attachDevice` call: the new state, the emitted hub
events, and the waiter callbacks invoked, in invocation order. -/
structure AttachResult where
  state : HubState
  events : List HubEvent
  invoked : List (Device → Bool)

/-- The decoder classes registered in the two `_createDevice`
implementations. -/
inductive DeviceCtor where
  | light
  | trainMotor
  | simpleMediumLinearMotor
  | moveHubMediumLinearMotor
  | motionSensor
  | tiltSensor
  | moveHubTiltSensor
  | technicMediumHubTiltSensor
  | technicMediumHubGyroSensor
  | technicMediumHubAccelerometerSensor
  | mediumLinearMotor
  | technicLargeLinearMotor
  | technicXLargeLinearMotor
  | colorDistanceSensor
  | voltageSensor
  | currentSensor
  | remoteControlButton
  | hubLED
  | duploTrainBaseColorSensor
  | duploTrainBaseMotor
  | duploTrainBaseSpeaker
  | duploTrainBaseSpeedometer
deriving DecidableEq

/-- What `_createDevice` constructs: `new constructor(this, portId)` for a
registered decoder class, or the generic
`new Device(this, portId, undefined, deviceType)` fallback, whose mode-map
argument is `undefined`. -/
inductive CreatedDevice where
  | registered (c : DeviceCtor) (portId : Nat)
  | generic (portId : Nat) (modeMap : Option (List (String × Nat))) (deviceType : Nat)
deriving DecidableEq

namespace BaseHub

/-- `BaseHub.getDeviceAtPort` (`part_001` lines 186-193): resolve the port
name through the fixed port map (`portId !== undefined`), then return the
attached device or `undefined`; an unknown port name throws. -/
def getDeviceAtPort (portMap : List (String × Nat))
    (attached : List (Nat × Device)) (portName : String) :
    Except String (Option Device) :=
  match lookupKV portMap portName with
  | some portId => .ok (lookupKV attached portId)
  | none => .error ("Port " ++ portName ++ " does not exist on this hub type")

/-- `BaseHub.getPortNameForPortId`: first port name mapped to the id. -/
def getPortNameForPortId (portMap : List (String × Nat)) (portId : Nat) :
    Option String :=
  match portMap with
  | [] => none
  | (name, pid) :: rest =>
    if pid = portId then some name else getPortNameForPortId rest portId

/-- `BaseHub.waitForDeviceAtPort`: resolve immediately when a device is
already present, otherwise push a predicate testing `device.portName`
onto the waiter list. The returned option is the immediately resolved
device, if any. -/
def waitForDeviceAtPort (portMap : List (String × Nat)) (s : HubState)
    (portName : String) : Except String (Option Device × HubState) :=
  match getDeviceAtPort portMap s.attachedDevices portName with
  | .error e => .error e
  | .ok (some dev) => .ok (some dev, s)
  | .ok none =>
    .ok (none,
      ⟨s.attachedDevices,
       s.attachCallbacks ++
         [fun d => getPortNameForPortId portMap d.portId == some portName]⟩)

/-- The backwards splice scan of `BaseHub._attachDevice` (`part_001` lines
302-308): `let i = len; while (i--) { if (cb[i](device)) splice(i, 1) }`.
The fuel argument is the loop index plus one; the result is the list of
callbacks invoked in invocation order, paired with the surviving callback
list. -/
def attachScanGo (d : Device) :
    Nat → List (Device → Bool) → List (Device → Bool) × List (Device → Bool)
  | 0, cbs => ([], cbs)
  | i + 1, cbs =>
    match cbs[i]? with
    | some cb =>
      let rest := attachScanGo d i (if cb d then cbs.eraseIdx i else cbs)
      (cb :: rest.1, rest.2)
    | none => attachScanGo d i cbs

/-- The full waiter scan, started at the list length as in the source. -/
def attachScan (d : Device) (cbs : List (Device → Bool)) :
    List (Device → Bool) × List (Device → Bool) :=
  attachScanGo d cbs.length cbs

/-- `BaseHub._attachDevice`: store the device under its port id, emit
`attach`, then run the backwards waiter scan. -/
def attachDevice (s : HubState) (d : Device) : AttachResult :=
  let attached := insertAL s.attachedDevices d.portId d
  let scanned := attachScan d s.attachCallbacks
  ⟨⟨attached, scanned.2⟩, [.attach d], scanned.1⟩

/-- `BaseHub._detachDevice`: delete the port-id entry and emit `detach`;
the waiter list is not consulted. -/
def detachDevice (s : HubState) (d : Device) : HubState × List HubEvent :=
  (⟨eraseAL s.attachedDevices d.portId, s.attachCallbacks⟩, [.detach d])

/-- The `deviceConstructors` registry of `BaseHub._createDevice`
(`part_001` lines 328-351). -/
def deviceConstructors : List (Nat × DeviceCtor) :=
  [(Consts.DeviceType.LIGHT, .light),
   (Consts.DeviceType.TRAIN_MOTOR, .trainMotor),
   (Consts.DeviceType.SIMPLE_MEDIUM_LINEAR_MOTOR, .simpleMediumLinearMotor),
   (Consts.DeviceType.MOVE_HUB_MEDIUM_LINEAR_MOTOR, .moveHubMediumLinearMotor),
   (Consts.DeviceType.MOTION_SENSOR, .motionSensor),
   (Consts.DeviceType.TILT_SENSOR, .tiltSensor),
   (Consts.DeviceType.MOVE_HUB_TILT_SENSOR, .moveHubTiltSensor),
   (Consts.DeviceType.TECHNIC_MEDIUM_HUB_TILT_SENSOR, .technicMediumHubTiltSensor),
   (Consts.DeviceType.TECHNIC_MEDIUM_HUB_GYRO_SENSOR, .technicMediumHubGyroSensor),
   (Consts.DeviceType.TECHNIC_MEDIUM_HUB_ACCELEROMETER, .technicMediumHubAccelerometerSensor),
   (Consts.DeviceType.MEDIUM_LINEAR_MOTOR, .mediumLinearMotor),
   (Consts.DeviceType.TECHNIC_LARGE_LINEAR_MOTOR, .technicLargeLinearMotor),
   (Consts.DeviceType.TECHNIC_XLARGE_LINEAR_MOTOR, .technicXLargeLinearMotor),
   (Consts.DeviceType.COLOR_DISTANCE_SENSOR, .colorDistanceSensor),
   (Consts.DeviceType.VOLTAGE_SENSOR, .voltageSensor),
   (Consts.DeviceType.CURRENT_SENSOR, .currentSensor),
   (Consts.DeviceType.REMOTE_CONTROL_BUTTON, .remoteControlButton),
   (Consts.DeviceType.HUB_LED, .hubLED),
   (Consts.DeviceType.DUPLO_TRAIN_BASE_COLOR_SENSOR, .duploTrainBaseColorSensor),
   (Consts.DeviceType.DUPLO_TRAIN_BASE_MOTOR, .duploTrainBaseMotor),
   (Consts.DeviceType.DUPLO_TRAIN_BASE_SPEAKER, .duploTrainBaseSpeaker),
   (Consts.DeviceType.DUPLO_TRAIN_BASE_SPEEDOMETER, .duploTrainBaseSpeedometer)]

/-- `BaseHub._createDevice`: registry lookup with generic-`Device`
fallback; the object lookup cannot throw. -/
def createDevice (deviceType portId : Nat) : CreatedDevice :=
  match lookupKV deviceConstructors deviceType with
  | some c => .registered c portId
  | none => .generic portId none deviceType

end BaseHub

namespace Hub

/-- `Hub.getDeviceAtPort` (`hub.ts` lines 190-197): the legacy class
guards with the JavaScript truthiness test `if (portId)`, so a port name
mapped to port id `0` takes the throwing branch. -/
def getDeviceAtPort (portMap : List (String × Nat))
    (attached : List (Nat × Device)) (portName : String) :
    Except String (Option Device) :=
  match lookupKV portMap portName with
  | some portId =>
    if portId = 0 then
      .error ("Port " ++ portName ++ " does not exist on this hub type")
    else
      .ok (lookupKV attached portId)
  | none => .error ("Port " ++ portName ++ " does not exist on this hub type")

/-- `Hub._attachDevice` (`hub.ts` lines 290-301): store the device, emit
`attach`, then `forEach` over the callbacks in forward registration order;
no callback is ever removed. -/
def attachDevice (s : HubState) (d : Device) : AttachResult :=
  ⟨⟨insertAL s.attachedDevices d.portId d, s.attachCallbacks⟩,
   [.attach d], s.attachCallbacks⟩

/-- `Hub._detachDevice` (`hub.ts` lines 304-312): same body as the
`BaseHub` version. -/
def detachDevice (s : HubState) (d : Device) : HubState × List HubEvent :=
  (⟨eraseAL s.attachedDevices d.portId, s.attachCallbacks⟩, [.detach d])

/-- The cases of the `switch (deviceType)` in `Hub._createDevice`
(`hub.ts` lines 315-355), in source order. -/
def deviceSwitch : List (Nat × DeviceCtor) :=
  [(Consts.DeviceType.LIGHT, .light),
   (Consts.DeviceType.TRAIN_MOTOR, .trainMotor),
   (Consts.DeviceType.SIMPLE_MEDIUM_LINEAR_MOTOR, .simpleMediumLinearMotor),
   (Consts.DeviceType.MOVE_HUB_MEDIUM_LINEAR_MOTOR, .moveHubMediumLinearMotor),
   (Consts.DeviceType.MOTION_SENSOR, .motionSensor),
   (Consts.DeviceType.TILT_SENSOR, .tiltSensor),
   (Consts.DeviceType.MEDIUM_LINEAR_MOTOR, .mediumLinearMotor),
   (Consts.DeviceType.TECHNIC_LARGE_LINEAR_MOTOR, .technicLargeLinearMotor),
   (Consts.DeviceType.TECHNIC_XLARGE_LINEAR_MOTOR, .technicXLargeLinearMotor),
   (Consts.DeviceType.COLOR_DISTANCE_SENSOR, .colorDistanceSensor)]

/-- `Hub._createDevice`: switch on the device type with a default branch
constructing the generic `Device`; a switch over distinct constant cases
is first-match dispatch over `deviceSwitch`. -/
def createDevice (deviceType portId : Nat) : CreatedDevice :=
  match lookupKV deviceSwitch deviceType with
  | some c => .registered c portId
  | none => .generic portId none deviceType

end Hub

/-! ### Helper lemmas about the JavaScript-object embedding -/

lemma lookupKV_eq_none_iff {α β : Type} [DecidableEq α]
    (l : List (α × β)) (k : α) :
    lookupKV l k = none ↔ k ∉ l.map Prod.fst := by
  induction l with
  | nil => simp [lookupKV]
  | cons p rest ih =>
    obtain ⟨k', v'⟩ := p
    simp only [lookupKV, List.map_cons, List.mem_cons, not_or]
    by_cases h : k' = k
    · subst h
      simp
    · rw [if_neg h, ih]
      constructor
      · intro hnot
        exact ⟨fun hh => h hh.symm, hnot⟩
      · intro hnot
        exact hnot.2

lemma lookupKV_insertAL_self {β : Type} (l : List (Nat × β)) (k : Nat)
    (v : β) : lookupKV (insertAL l k v) k = some v := by
  induction l with
  | nil => simp [insertAL, lookupKV]
  | cons p rest ih =>
    obtain ⟨k', v'⟩ := p
    by_cases h : k' = k <;> simp [insertAL, lookupKV, h, ih]

lemma lookupKV_eraseAL_self {β : Type} (l : List (Nat × β)) (k : Nat) :
    lookupKV (eraseAL l k) k = none := by
  induction l with
  | nil => simp [eraseAL, lookupKV]
  | cons p rest ih =>
    obtain ⟨k', v'⟩ := p
    by_cases h : k' = k <;> simp [eraseAL, lookupKV, h, ih]

lemma lookupKV_eraseAL_ne {β : Type} (l : List (Nat × β)) (k k' : Nat)
    (h : k' ≠ k) : lookupKV (eraseAL l k) k' = lookupKV l k' := by
  induction l with
  | nil => simp [eraseAL]
  | cons p rest ih =>
    obtain ⟨a, b⟩ := p
    by_cases ha : a = k
    · subst ha
      have hak : ¬(a = k') := fun hh => h hh.symm
      simp only [eraseAL, if_pos rfl, lookupKV, if_neg hak]
      exact ih
    · by_cases hb : a = k'
      · subst hb
        simp [eraseAL, lookupKV, ha]
      · simp only [eraseAL, if_neg ha, lookupKV, if_neg hb]
        exact ih

lemma mem_keys_insertAL {β : Type} (l : List (Nat × β)) (k a : Nat) (v : β) :
    a ∈ (insertAL l k v).map Prod.fst → a ∈ l.map Prod.fst ∨ a = k := by
  induction l with
  | nil =>
    intro h
    simp only [insertAL, List.map_cons, List.map_nil, List.mem_singleton] at h
    exact .inr h
  | cons p rest ih =>
    obtain ⟨k', v'⟩ := p
    by_cases hk : k' = k
    · subst hk
      intro h
      rw [show insertAL ((k', v') :: rest) k' v = (k', v) :: rest by
            simp [insertAL],
          List.map_cons, List.mem_cons] at h
      rcases h with h | h
      · exact .inr h
      · exact .inl (List.mem_cons.mpr (.inr h))
    · intro h
      simp only [insertAL, if_neg hk, List.map_cons, List.mem_cons] at h
      rcases h with h | h
      · exact .inl (List.mem_cons.mpr (.inl h))
      · rcases ih h with h' | h'
        · exact .inl (List.mem_cons.mpr (.inr h'))
        · exact .inr h'

lemma keysNodup_insertAL {β : Type} (l : List (Nat × β)) (k : Nat) (v : β)
    (h : keysNodup l) : keysNodup (insertAL l k v) := by
  induction l with
  | nil => simp [insertAL, keysNodup]
  | cons p rest ih =>
    obtain ⟨k', v'⟩ := p
    rw [keysNodup, List.map_cons, List.nodup_cons] at h
    obtain ⟨hnotin, hrest⟩ := h
    by_cases hk : k' = k
    · subst hk
      rw [show insertAL ((k', v') :: rest) k' v = (k', v) :: rest by
            simp [insertAL],
          keysNodup, List.map_cons, List.nodup_cons]
      exact ⟨hnotin, hrest⟩
    · have ihr := ih hrest
      rw [show insertAL ((k', v') :: rest) k v = (k', v') :: insertAL rest k v by
            simp [insertAL, hk],
          keysNodup, List.map_cons, List.nodup_cons]
      refine ⟨?_, ihr⟩
      intro hmem
      rcases mem_keys_insertAL rest k k' v hmem with h1 | h1
      · exact hnotin h1
      · exact hk h1

lemma eraseAL_sublist {β : Type} (l : List (Nat × β)) (k : Nat) :
    (eraseAL l k).Sublist l := by
  induction l with
  | nil => simp [eraseAL]
  | cons p rest ih =>
    obtain ⟨k', v'⟩ := p
    by_cases h : k' = k
    · simp only [eraseAL, if_pos h]
      exact List.Sublist.cons _ ih
    · simp only [eraseAL, if_neg h]
      exact List.Sublist.cons₂ _ ih

lemma keysNodup_eraseAL {β : Type} (l : List (Nat × β)) (k : Nat)
    (h : keysNodup l) : keysNodup (eraseAL l k) :=
  List.Nodup.sublist (List.Sublist.map Prod.fst (eraseAL_sublist l k)) h

/-! ### Helper lemmas about buffer reads -/

lemma readUInt16LE_ok (msg : List Nat) (offset : Nat)
    (h : offset + 2 ≤ msg.length) :
    readUInt16LE msg offset
      = .ok (msg.getD offset 0 + 256 * msg.getD (offset + 1) 0) := by
  simp [readUInt16LE, h]

lemma readUInt16LE_error (msg : List Nat) (offset : Nat)
    (h : msg.length < offset + 2) :
    readUInt16LE msg offset = .error "ERR_OUT_OF_RANGE" := by
  rw [readUInt16LE, if_neg]
  omega

/-! ### The backwards waiter scan -/

lemma attachScanGo_spec (d : Device) (i : Nat) :
    ∀ cbs : List (Device → Bool), i ≤ cbs.length →
      BaseHub.attachScanGo d i cbs =
        ((cbs.take i).reverse,
         (cbs.take i).filter (fun cb => !(cb d)) ++ cbs.drop i) := by
  induction i with
  | zero =>
    intro cbs _
    simp [BaseHub.attachScanGo]
  | succ i ih =>
    intro cbs hlen
    have hi : i < cbs.length := hlen
    have hget : cbs[i]? = some cbs[i] := List.getElem?_eq_getElem hi
    have hAlen : (cbs.take i).length = i := by
      simp [List.length_take, Nat.min_eq_left (Nat.le_of_lt hi)]
    have hsucc : cbs.take (i + 1) = cbs.take i ++ [cbs[i]] := by
      rw [List.take_succ, hget]
      rfl
    rw [hsucc]
    simp only [BaseHub.attachScanGo, hget]
    by_cases hcb : cbs[i] d
    · rw [if_pos hcb]
      have herase : cbs.eraseIdx i = cbs.take i ++ cbs.drop (i + 1) :=
        List.eraseIdx_eq_take_drop_succ cbs i
      have hlen' : i ≤ (cbs.eraseIdx i).length := by
        rw [herase, List.length_append, hAlen]
        exact Nat.le_add_right i _
      have htake : (cbs.eraseIdx i).take i = cbs.take i := by
        rw [herase, List.take_append_eq_append_take, hAlen]
        simp [List.take_take]
      have hdrop : (cbs.eraseIdx i).drop i = cbs.drop (i + 1) := by
        rw [herase, List.drop_append_eq_append_drop, hAlen]
        simp [List.drop_take]
      rw [ih _ hlen', htake, hdrop, List.reverse_append, List.filter_append]
      simp [hcb]
    · rw [if_neg hcb]
      have hdropi : cbs.drop i = cbs[i] :: cbs.drop (i + 1) :=
        List.drop_eq_getElem_cons hi
      rw [ih cbs (Nat.le_of_lt hi), hdropi, List.reverse_append,
        List.filter_append]
      simp [hcb]

lemma attachScan_spec (d : Device) (cbs : List (Device → Bool)) :
    BaseHub.attachScan d cbs =
      (cbs.reverse, cbs.filter (fun cb => !(cb d))) := by
  have h := attachScanGo_spec d cbs.length cbs le_rfl
  rw [show BaseHub.attachScan d cbs = BaseHub.attachScanGo d cbs.length cbs
        from rfl,
    h, List.take_length, List.drop_length, List.append_nil]

/-! ### Claim theorems -/

/-- C1 (amended): `BaseHub._attachDevice` invokes the pending waiter
callbacks in reverse registration order (most recently registered first),
invokes each pending callback exactly once — the invocation sequence is
exactly the reversed registration list, so the splice of a satisfied
callback neither skips nor double-invokes any other callback — and removes
exactly the satisfied callbacks from the pending list. The legacy
`Hub._attachDevice`, by contrast, invokes the callbacks in forward
registration order and removes none of them. -/
theorem attach_waiter_scan_spec (s : HubState) (d : Device) :
    (BaseHub.attachDevice s d).invoked = s.attachCallbacks.reverse
    ∧ (BaseHub.attachDevice s d).state.attachCallbacks
        = s.attachCallbacks.filter (fun cb => !(cb d))
    ∧ (Hub.attachDevice s d).invoked = s.attachCallbacks
    ∧ (Hub.attachDevice s d).state.attachCallbacks = s.attachCallbacks := by
  refine ⟨?_, ?_, rfl, rfl⟩
  · show (BaseHub.attachScan d s.attachCallbacks).1 = _
    rw [attachScan_spec]
  · show (BaseHub.attachScan d s.attachCallbacks).2 = _
    rw [attachScan_spec]

/-- C1 counterexample: in the legacy `Hub._attachDevice` (hub.ts) a pending
waiter callback satisfied by the new device is not removed from the pending
list — after the attach the list still has its one (satisfied) callback,
refuting the claim that every satisfied callback is removed. -/
theorem hub_forward_scan_counterexample :
    (fun _ : Device => true) (Device.mk 0 8) = true
    ∧ (Hub.attachDevice ⟨[], [fun _ => true]⟩
        (Device.mk 0 8)).state.attachCallbacks.length = 1 :=
  ⟨rfl, rfl⟩

/-- C2 (amended): `BaseHub.getDeviceAtPort` raises the port-not-found error
iff the port name is not a key of the hub's port map, and for every legal
port name — including one mapped to port id 0 — returns the attached device
or an absent result without error; the legacy `Hub.getDeviceAtPort`
additionally raises the error when the mapped port id is 0, because of its
JavaScript truthiness guard. -/
theorem getDeviceAtPort_spec (portMap : List (String × Nat))
    (attached : List (Nat × Device)) (portName : String) :
    (isError (BaseHub.getDeviceAtPort portMap attached portName) = true
      ↔ portName ∉ portMap.map Prod.fst)
    ∧ (∀ pid, lookupKV portMap portName = some pid →
        BaseHub.getDeviceAtPort portMap attached portName
          = .ok (lookupKV attached pid))
    ∧ (lookupKV portMap portName = some 0 →
        isError (Hub.getDeviceAtPort portMap attached portName) = true) := by
  refine ⟨?_, ?_, ?_⟩
  · rw [← lookupKV_eq_none_iff]
    cases h : lookupKV portMap portName <;>
      simp [BaseHub.getDeviceAtPort, h, isError]
  · intro pid h
    simp [BaseHub.getDeviceAtPort, h]
  · intro h
    simp [Hub.getDeviceAtPort, h, isError]

/-- C2 witness: on a hub whose port map sends port A to port id 0 and with
nothing attached, the `BaseHub` lookup returns absence without error while
the legacy `Hub` lookup throws. -/
theorem getDeviceAtPort_spec_witness :
    BaseHub.getDeviceAtPort [("A", 0)] [] "A" = .ok none
    ∧ isError (Hub.getDeviceAtPort [("A", 0)] [] "A") = true :=
  ⟨(getDeviceAtPort_spec [("A", 0)] [] "A").2.1 0 (by decide),
   (getDeviceAtPort_spec [("A", 0)] [] "A").2.2 (by decide)⟩

/-- C2 counterexample: port name A is a key of the port map (mapped to port
id 0), yet the legacy `Hub.getDeviceAtPort` raises the port-not-found
error, refuting the claimed equivalence between erroring and the name being
absent from the port map. -/
theorem hub_port_zero_counterexample :
    "A" ∈ ([("A", 0)] : List (String × Nat)).map Prod.fst
    ∧ isError (Hub.getDeviceAtPort [("A", 0)] [] "A") = true := by
  refine ⟨?_, ?_⟩
  · simp
  · decide

/-- C3 (amended): for both given decoders, an unrecognized mode makes
`receive` emit nothing and throw nothing. Truncated buffers, however, are
not tolerated in general: the modes performing bounds-checked two-byte
reads (DuploTrainBaseColorSensor RGB, VoltageSensor VOLTAGE) throw a range
error when the buffer is shorter than the read offsets require, while the
single-byte COLOR mode emits nothing on a truncated buffer and the
REFLECTIVITY mode emits a reflect event with an undefined payload. -/
theorem receive_tolerance_spec (mode : Nat) (msg : List Nat) (hubType : Nat) :
    (mode ≠ 0 → mode ≠ 2 → mode ≠ 3 →
      DuploTrainBaseColorSensor.receive false mode msg = .ok .nothing)
    ∧ (mode ≠ 0 → VoltageSensor.receive hubType mode msg = .ok .nothing)
    ∧ (msg.length < 5 →
        DuploTrainBaseColorSensor.receive false 0 msg = .ok .nothing)
    ∧ (msg.length < 5 →
        DuploTrainBaseColorSensor.receive false 2 msg
          = .ok (.event (.reflect none)))
    ∧ (msg.length < 10 →
        isError (DuploTrainBaseColorSensor.receive false 3 msg) = true)
    ∧ (VoltageSensor.isWeDo2SmartHub hubType = false → msg.length < 6 →
        isError (VoltageSensor.receive hubType 0 msg) = true)
    ∧ (VoltageSensor.isWeDo2SmartHub hubType = true → msg.length < 4 →
        isError (VoltageSensor.receive hubType 0 msg) = true) := by
  have hnone : msg.length < 5 → msg[4]? = none := by
    intro h
    exact List.getElem?_eq_none (by omega)
  refine ⟨?_, ?_, ?_, ?_, ?_, ?_, ?_⟩
  · intro h0 h2 h3
    simp [DuploTrainBaseColorSensor.receive,
      DuploTrainBaseColorSensor.Mode.COLOR,
      DuploTrainBaseColorSensor.Mode.REFLECTIVITY,
      DuploTrainBaseColorSensor.Mode.RGB, h0, h2, h3]
  · intro h0
    simp [VoltageSensor.receive, VoltageSensor.Mode.VOLTAGE, h0]
  · intro h
    simp [DuploTrainBaseColorSensor.receive,
      DuploTrainBaseColorSensor.Mode.COLOR, hnone h]
  · intro h
    simp [DuploTrainBaseColorSensor.receive,
      DuploTrainBaseColorSensor.Mode.COLOR,
      DuploTrainBaseColorSensor.Mode.REFLECTIVITY, hnone h]
  · intro h
    have h4 : readUInt16LE msg 4 = .error "ERR_OUT_OF_RANGE"
        ∨ readUInt16LE msg 6 = .error "ERR_OUT_OF_RANGE"
        ∨ readUInt16LE msg 8 = .error "ERR_OUT_OF_RANGE" := by
      rcases Nat.lt_or_ge msg.length 6 with hl | hl
      · exact .inl (readUInt16LE_error msg 4 (by omega))
      · rcases Nat.lt_or_ge msg.length 8 with hl2 | hl2
        · exact .inr (.inl (readUInt16LE_error msg 6 (by omega)))
        · exact .inr (.inr (readUInt16LE_error msg 8 (by omega)))
    simp only [DuploTrainBaseColorSensor.receive,
      DuploTrainBaseColorSensor.Mode.COLOR,
      DuploTrainBaseColorSensor.Mode.REFLECTIVITY,
      DuploTrainBaseColorSensor.Mode.RGB]
    norm_num
    rcases h4 with h4 | h4 | h4 <;>
      cases h6 : readUInt16LE msg 4 <;>
      cases h8 : readUInt16LE msg 6 <;>
      cases h10 : readUInt16LE msg 8 <;>
      simp_all [isError]
  · intro hw hlen
    have h4 : readUInt16LE msg 4 = .error "ERR_OUT_OF_RANGE" :=
      readUInt16LE_error msg 4 (by omega)
    simp [VoltageSensor.receive, VoltageSensor.Mode.VOLTAGE, hw, h4, isError]
  · intro hw hlen
    have h2 : readUInt16LE msg 2 = .error "ERR_OUT_OF_RANGE" :=
      readUInt16LE_error msg 2 (by omega)
    simp [VoltageSensor.receive, VoltageSensor.Mode.VOLTAGE, hw, readInt16LE,
      h2, isError]

/-- C3 witness: concrete evaluations of each case of the tolerance theorem,
with all hypotheses discharged on the empty buffer and on hub types 0
(non-WeDo2) and 1 (WeDo2). -/
theorem receive_tolerance_spec_witness :
    DuploTrainBaseColorSensor.receive false 1 [] = .ok .nothing
    ∧ VoltageSensor.receive 0 1 [] = .ok .nothing
    ∧ DuploTrainBaseColorSensor.receive false 0 [] = .ok .nothing
    ∧ DuploTrainBaseColorSensor.receive false 2 []
        = .ok (.event (.reflect none))
    ∧ isError (DuploTrainBaseColorSensor.receive false 3 []) = true
    ∧ isError (VoltageSensor.receive 0 0 []) = true
    ∧ isError (VoltageSensor.receive 1 0 []) = true :=
  ⟨(receive_tolerance_spec 1 [] 0).1 (by decide) (by decide) (by decide),
   (receive_tolerance_spec 1 [] 0).2.1 (by decide),
   (receive_tolerance_spec 1 [] 0).2.2.1 (by decide),
   (receive_tolerance_spec 1 [] 0).2.2.2.1 (by decide),
   (receive_tolerance_spec 1 [] 0).2.2.2.2.1 (by decide),
   (receive_tolerance_spec 1 [] 0).2.2.2.2.2.1 (by decide) (by decide),
   (receive_tolerance_spec 1 [] 1).2.2.2.2.2.2 (by decide) (by decide)⟩

/-- C3 counterexample: in RGB mode a truncated (empty) buffer makes
`receive` throw a range error instead of doing nothing, refuting the claim
that `receive` never throws on truncated buffers. -/
theorem receive_truncated_rgb_counterexample :
    DuploTrainBaseColorSensor.receive false 3 []
      = .error "ERR_OUT_OF_RANGE" := rfl

/-- C4 (amended): for every hub type other than `WEDO2_SMART_HUB` that has
no row in `MaxVoltageValue` and none in `MaxVoltageRaw`, the voltage sensor
in VOLTAGE mode falls back to the `UNKNOWN` row of each table independently
and emits `rawValue * 9.615 / 3893`, where `rawValue` is the little-endian
unsigned 16-bit value at buffer offset 4; the table lookup never throws for
an unrecognized hub type. The `WEDO2_SMART_HUB` type also has no row in
either table, but takes the separate signed `readInt16LE(2) / 40` branch
instead. -/
theorem voltage_unknown_fallback (hubType : Nat) (msg : List Nat)
    (hw : hubType ≠ Consts.HubType.WEDO2_SMART_HUB)
    (hv : hubType ∉ VoltageSensor.MaxVoltageValue.map Prod.fst)
    (hr : hubType ∉ VoltageSensor.MaxVoltageRaw.map Prod.fst)
    (hlen : 6 ≤ msg.length) :
    VoltageSensor.receive hubType 0 msg
      = .ok (.voltage
          (((msg.getD 4 0 + 256 * msg.getD 5 0 : Nat) : Rat)
            * 9.615 / 3893)) := by
  have hw' : VoltageSensor.isWeDo2SmartHub hubType = false := by
    simp [VoltageSensor.isWeDo2SmartHub, hw]
  have hv' : lookupKV VoltageSensor.MaxVoltageValue hubType = none :=
    (lookupKV_eq_none_iff _ _).mpr hv
  have hr' : lookupKV VoltageSensor.MaxVoltageRaw hubType = none :=
    (lookupKV_eq_none_iff _ _).mpr hr
  have h4 := readUInt16LE_ok msg 4 (by omega)
  simp only [VoltageSensor.receive, VoltageSensor.Mode.VOLTAGE, hw', hv',
    hr', h4, if_pos rfl, Bool.false_eq_true, if_false]
  norm_num [VoltageSensor.MaxVoltageValue, VoltageSensor.MaxVoltageRaw,
    lookupKV, Consts.HubType.UNKNOWN]

/-- C4 witness: the MOVE_HUB hub type (code 2) has no row in either table
and is not the WeDo 2.0 hub; on a 6-byte buffer with raw value 356 the
decoder emits `356 * 9.615 / 3893`. -/
theorem voltage_unknown_fallback_witness :
    VoltageSensor.receive 2 0 [0, 0, 0, 0, 100, 1]
      = .ok (.voltage (((356 : Nat) : Rat) * 9.615 / 3893)) :=
  voltage_unknown_fallback 2 [0, 0, 0, 0, 100, 1] (by decide) (by decide)
    (by decide) (by decide)

/-- C4 counterexample: the WeDo 2.0 smart hub type has no row in either
scaling table, yet in VOLTAGE mode the decoder takes the signed
`readInt16LE(2) / 40` branch — on this buffer it emits voltage 1, not the
claimed UNKNOWN-fallback value 0. -/
theorem voltage_wedo2_counterexample :
    Consts.HubType.WEDO2_SMART_HUB ∉ VoltageSensor.MaxVoltageValue.map Prod.fst
    ∧ Consts.HubType.WEDO2_SMART_HUB ∉ VoltageSensor.MaxVoltageRaw.map Prod.fst
    ∧ VoltageSensor.receive Consts.HubType.WEDO2_SMART_HUB 0
        [0, 0, 40, 0, 0, 0] = .ok (.voltage 1)
    ∧ ((([0, 0, 40, 0, 0, 0] : List Nat).getD 4 0
          + 256 * ([0, 0, 40, 0, 0, 0] : List Nat).getD 5 0 : Nat) : Rat)
        * 9.615 / 3893 = 0
    ∧ (1 : Rat) ≠ 0 := by
  refine ⟨by decide, by decide, ?_, by norm_num, by norm_num⟩
  simp only [VoltageSensor.receive, VoltageSensor.Mode.VOLTAGE,
    VoltageSensor.isWeDo2SmartHub, Consts.HubType.WEDO2_SMART_HUB,
    readInt16LE, readUInt16LE]
  norm_num

/-- C5: in COLOR mode the single byte at offset 4 yields a color event
carrying that byte iff it is at most 10; a byte greater than 10 emits no
event. -/
theorem duplo_color_threshold (msg : List Nat) (b : Nat)
    (h : msg[4]? = some b) :
    DuploTrainBaseColorSensor.receive false 0 msg
      = .ok (if b ≤ 10 then .event (.color b) else .nothing) := by
  simp [DuploTrainBaseColorSensor.receive,
    DuploTrainBaseColorSensor.Mode.COLOR, h]
  split <;> rfl

/-- C5 witness: byte 7 at offset 4 emits a color event with color 7, and
byte 11 emits nothing. -/
theorem duplo_color_threshold_witness :
    DuploTrainBaseColorSensor.receive false 0 [0, 0, 0, 0, 7]
      = .ok (.event (.color 7))
    ∧ DuploTrainBaseColorSensor.receive false 0 [0, 0, 0, 0, 11]
      = .ok .nothing :=
  ⟨duplo_color_threshold [0, 0, 0, 0, 7] 7 (by decide),
   duplo_color_threshold [0, 0, 0, 0, 11] 11 (by decide)⟩

/-- C6: in RGB mode the emitted rgb event carries the three little-endian
unsigned 16-bit values read at offsets 4, 6 and 8, each divided by 4
(integer floor division, exact on the claim's example values). -/
theorem duplo_rgb_decode (msg : List Nat) (hlen : 10 ≤ msg.length) :
    DuploTrainBaseColorSensor.receive false 3 msg
      = .ok (.event (.rgb
          ((msg.getD 4 0 + 256 * msg.getD 5 0) / 4)
          ((msg.getD 6 0 + 256 * msg.getD 7 0) / 4)
          ((msg.getD 8 0 + 256 * msg.getD 9 0) / 4))) := by
  have h4 := readUInt16LE_ok msg 4 (by omega)
  have h6 := readUInt16LE_ok msg 6 (by omega)
  have h8 := readUInt16LE_ok msg 8 (by omega)
  norm_num at h4 h6 h8
  simp [DuploTrainBaseColorSensor.receive,
    DuploTrainBaseColorSensor.Mode.COLOR,
    DuploTrainBaseColorSensor.Mode.REFLECTIVITY,
    DuploTrainBaseColorSensor.Mode.RGB, h4, h6, h8]

/-- C6 witness: raw little-endian values (400, 800, 1200) at offsets 4, 6
and 8 yield the rgb event (100, 200, 300). -/
theorem duplo_rgb_decode_witness :
    DuploTrainBaseColorSensor.receive false 3 [0, 0, 0, 0, 144, 1, 32, 3, 176, 4]
      = .ok (.event (.rgb 100 200 300)) :=
  duplo_rgb_decode [0, 0, 0, 0, 144, 1, 32, 3, 176, 4] (by decide)

/-- C7: `_createDevice` never throws: a device-type code with no entry in
the decoder registry yields the generic `Device` constructed with an
undefined mode map (so it decodes no events), and a registered code yields
an instance of its registered decoder class — for both the `BaseHub`
registry and the legacy `Hub` switch. -/
theorem createDevice_total_spec (t p : Nat) :
    (t ∉ BaseHub.deviceConstructors.map Prod.fst →
      BaseHub.createDevice t p = .generic p none t)
    ∧ (∀ c, lookupKV BaseHub.deviceConstructors t = some c →
        BaseHub.createDevice t p = .registered c p)
    ∧ (t ∉ Hub.deviceSwitch.map Prod.fst →
      Hub.createDevice t p = .generic p none t)
    ∧ (∀ c, lookupKV Hub.deviceSwitch t = some c →
        Hub.createDevice t p = .registered c p) := by
  refine ⟨?_, ?_, ?_, ?_⟩
  · intro h
    rw [BaseHub.createDevice, (lookupKV_eq_none_iff _ _).mpr h]
  · intro c h
    rw [BaseHub.createDevice, h]
  · intro h
    rw [Hub.createDevice, (lookupKV_eq_none_iff _ _).mpr h]
  · intro c h
    rw [Hub.createDevice, h]

/-- C7 witness: code 99 is registered in neither table and falls back to
the generic `Device`; code 43 builds the Duplo color sensor on `BaseHub`,
and code 8 builds the light on the legacy `Hub`. -/
theorem createDevice_total_spec_witness :
    BaseHub.createDevice 99 1 = .generic 1 none 99
    ∧ BaseHub.createDevice 43 2 = .registered .duploTrainBaseColorSensor 2
    ∧ Hub.createDevice 99 1 = .generic 1 none 99
    ∧ Hub.createDevice 8 2 = .registered .light 2 :=
  ⟨(createDevice_total_spec 99 1).1 (by decide),
   (createDevice_total_spec 43 2).2.1 DeviceCtor.duploTrainBaseColorSensor
     (by decide),
   (createDevice_total_spec 99 1).2.2.1 (by decide),
   (createDevice_total_spec 8 2).2.2.2 DeviceCtor.light (by decide)⟩

/-- C8: at most one device is registered per port id (attach and detach
both preserve key uniqueness of the attached-device table), and after
`_detachDevice` runs for a port, `getDeviceAtPort` on that port's name
returns absence; a subsequent attach of a new device at that port id makes
it return the new device. -/
theorem attachedDevices_unique_detach_absent (s : HubState) (d : Device)
    (portMap : List (String × Nat)) (portName : String) :
    (keysNodup s.attachedDevices →
      keysNodup (BaseHub.attachDevice s d).state.attachedDevices
      ∧ keysNodup (BaseHub.detachDevice s d).1.attachedDevices)
    ∧ (lookupKV portMap portName = some d.portId →
        BaseHub.getDeviceAtPort portMap
          (BaseHub.detachDevice s d).1.attachedDevices portName = .ok none)
    ∧ (∀ d' : Device, d'.portId = d.portId →
        lookupKV portMap portName = some d.portId →
        BaseHub.getDeviceAtPort portMap
          (BaseHub.attachDevice
            (BaseHub.detachDevice s d).1 d').state.attachedDevices portName
          = .ok (some d')) := by
  refine ⟨fun h => ⟨keysNodup_insertAL _ _ _ h, keysNodup_eraseAL _ _ h⟩,
    ?_, ?_⟩
  · intro h
    simp [BaseHub.detachDevice, BaseHub.getDeviceAtPort, h,
      lookupKV_eraseAL_self]
  · intro d' hpid h
    rw [← hpid] at h
    simp [BaseHub.attachDevice, BaseHub.detachDevice,
      BaseHub.getDeviceAtPort, h, lookupKV_insertAL_self]

/-- C8 witness: on a hub with port A mapped to port id 0 and a device of
type 8 attached there, detaching leaves the table with unique keys and
port A absent, and attaching a new device of type 37 at port 0 makes port
A return it. -/
theorem attachedDevices_unique_detach_absent_witness :
    (keysNodup (BaseHub.attachDevice ⟨[(0, ⟨0, 8⟩)], []⟩
        ⟨0, 8⟩).state.attachedDevices
      ∧ keysNodup (BaseHub.detachDevice ⟨[(0, ⟨0, 8⟩)], []⟩
        ⟨0, 8⟩).1.attachedDevices)
    ∧ BaseHub.getDeviceAtPort [("A", 0)]
        (BaseHub.detachDevice ⟨[(0, ⟨0, 8⟩)], []⟩ ⟨0, 8⟩).1.attachedDevices
        "A" = .ok none
    ∧ BaseHub.getDeviceAtPort [("A", 0)]
        (BaseHub.attachDevice
          (BaseHub.detachDevice ⟨[(0, ⟨0, 8⟩)], []⟩ ⟨0, 8⟩).1
          ⟨0, 37⟩).state.attachedDevices "A" = .ok (some ⟨0, 37⟩) :=
  ⟨(attachedDevices_unique_detach_absent ⟨[(0, ⟨0, 8⟩)], []⟩ ⟨0, 8⟩
      [("A", 0)] "A").1 (by simp [keysNodup]),
   (attachedDevices_unique_detach_absent ⟨[(0, ⟨0, 8⟩)], []⟩ ⟨0, 8⟩
      [("A", 0)] "A").2.1 (by decide),
   (attachedDevices_unique_detach_absent ⟨[(0, ⟨0, 8⟩)], []⟩ ⟨0, 8⟩
      [("A", 0)] "A").2.2 ⟨0, 37⟩ rfl (by decide)⟩

/-- C9: `_detachDevice` removes exactly the detached device's port entry
from the attached-device table, emits one detach event, and leaves the
pending waiter list unchanged — so no pending waiter is resolved, rejected
or otherwise touched by a detach, and each keeps waiting for a future
attach. -/
theorem detach_frame_spec (s : HubState) (d : Device) (k : Nat) :
    (BaseHub.detachDevice s d).1.attachCallbacks = s.attachCallbacks
    ∧ (BaseHub.detachDevice s d).2 = [HubEvent.detach d]
    ∧ lookupKV (BaseHub.detachDevice s d).1.attachedDevices d.portId = none
    ∧ (k ≠ d.portId →
        lookupKV (BaseHub.detachDevice s d).1.attachedDevices k
          = lookupKV s.attachedDevices k) :=
  ⟨rfl, rfl, lookupKV_eraseAL_self _ _, fun h => lookupKV_eraseAL_ne _ _ _ h⟩

/-- C9 witness: detaching the device at port 0 leaves the entry at port 1
untouched. -/
theorem detach_frame_spec_witness :
    lookupKV (BaseHub.detachDevice ⟨[(0, ⟨0, 8⟩), (1, ⟨1, 2⟩)], []⟩
        ⟨0, 8⟩).1.attachedDevices 1
      = lookupKV [(0, (⟨0, 8⟩ : Device)), (1, ⟨1, 2⟩)] 1 :=
  (detach_frame_spec ⟨[(0, ⟨0, 8⟩), (1, ⟨1, 2⟩)], []⟩ ⟨0, 8⟩ 1).2.2.2
    (by decide)

/-- C10: when `_attachDevice` runs for a port id that already holds a
device, the new device silently replaces the old one: the only emitted hub
event is the attach of the new device (no detach event for the replaced
occupant), and the table afterwards holds the new device at that port id —
in both the `BaseHub` and the legacy `Hub` implementation. -/
theorem attach_replace_silent (s : HubState) (d old : Device)
    (h : lookupKV s.attachedDevices d.portId = some old) :
    (BaseHub.attachDevice s d).events = [HubEvent.attach d]
    ∧ lookupKV (BaseHub.attachDevice s d).state.attachedDevices d.portId
        = some d
    ∧ (Hub.attachDevice s d).events = [HubEvent.attach d]
    ∧ lookupKV (Hub.attachDevice s d).state.attachedDevices d.portId
        = some d :=
  ⟨rfl, lookupKV_insertAL_self _ _ _, rfl, lookupKV_insertAL_self _ _ _⟩

/-- C10 witness: port 0 holds a device of type 8; attaching a device of
type 2 at port 0 emits only its attach event and replaces the entry. -/
theorem attach_replace_silent_witness :
    (BaseHub.attachDevice ⟨[(0, ⟨0, 8⟩)], []⟩ ⟨0, 2⟩).events
      = [HubEvent.attach ⟨0, 2⟩]
    ∧ lookupKV (BaseHub.attachDevice ⟨[(0, ⟨0, 8⟩)], []⟩
        ⟨0, 2⟩).state.attachedDevices 0 = some ⟨0, 2⟩
    ∧ (Hub.attachDevice ⟨[(0, ⟨0, 8⟩)], []⟩ ⟨0, 2⟩).events
      = [HubEvent.attach ⟨0, 2⟩]
    ∧ lookupKV (Hub.attachDevice ⟨[(0, ⟨0, 8⟩)], []⟩
        ⟨0, 2⟩).state.attachedDevices 0 = some ⟨0, 2⟩ :=
  attach_replace_silent ⟨[(0, ⟨0, 8⟩)], []⟩ ⟨0, 2⟩ ⟨0, 8⟩ (by decide)
